import Mathlib

/-!
# pdf-manager: shallow embedding of the client file-operation layer

Shallow embedding of the parts of the `pdf-manager` repository that the
claims concern:

* `src/frontend/src/services/pdfService.ts` — the client-side file
  operations (`compress`, `merge`, `preview`, `convert`, `export`) with
  their input validation, the single POST request each operation issues,
  and the blob-vs-JSON content-type sniffing of the response;
* the `AuthService` session lifecycle (`setSession` / `getSession`);
* the Dashboard's `moveFile` list reordering.

Each operation is embedded as a pure function from its inputs and the
server's (fulfilled) response to an `OpOutcome`: either the operation
throws before any request is issued (`localError`), or it issues exactly
one POST (`sent`) carrying the request it built and the result of
processing the response.  The JavaScript runtime's `JSON.parse` is not
re-implemented: a response body is viewed through the only operations the
client performs on it (return unchanged, or parse as JSON and read the
`detail` field), so a body is either `json detail?` (text parses as a
JSON object, `detail` field when a string one is present) or
`binary bytes` (anything `JSON.parse` rejects).
-/

/-- Declared metadata of an uploaded file as the browser `File` object
exposes it to this code: name, declared MIME type, size. -/
structure File where
  name : String
  type : String
  size : Nat
  deriving DecidableEq, Repr

/-- One value appended to a `FormData` body: a file part or a string part. -/
inductive FormValue
  | file (f : File)
  | str (s : String)
  deriving DecidableEq, Repr

/-- A `FormData` body: the ordered list of appended (field name, value)
pairs. -/
abbrev FormData := List (String × FormValue)

/-- A POST request as the service issues it: URL and multipart body. -/
structure Request where
  url : String
  form : FormData
  deriving DecidableEq, Repr

/-- The body blob of a fulfilled response, viewed through the two things
the client does with it: `json detail?` is a body whose text `JSON.parse`
accepts, with `detail? = some d` exactly when the parsed object has a
string `detail` field `d`; `binary bytes` is any payload `JSON.parse`
rejects. -/
inductive Body
  | json (detail : Option String)
  | binary (bytes : List Nat)
  deriving DecidableEq, Repr

/-- A fulfilled axios response as the client reads it: the
`content-type` header (when present) and the blob body. -/
structure AxiosResponse where
  contentType : Option String
  body : Body
  deriving DecidableEq, Repr

/-- How an operation that did issue its request ends: the blob returned
unchanged (`ok`), a thrown `Error` whose message the code constructs
(`err msg`), or a thrown error whose message comes from the JS runtime's
JSON parser rejecting the body (`errParse`; the runtime message is not
modelled). -/
inductive OpResult
  | ok (body : Body)
  | err (msg : String)
  | errParse
  deriving DecidableEq, Repr

/-- What one operation call does, observably: throw before any HTTP
request (`localError msg`), or issue exactly one POST and finish with
`result` (`sent req result`). -/
inductive OpOutcome
  | localError (msg : String)
  | sent (req : Request) (result : OpResult)
  deriving DecidableEq, Repr

/-- JavaScript `s.includes(pat)`: `pat` occurs as a contiguous substring
of `s`. -/
def includesSubstr (s pat : String) : Bool :=
  decide (pat.toList <:+: s.toList)

/-- `contentType && contentType.includes('application/json')`: a missing
header is falsy. -/
def isJsonContentType : Option String → Bool
  | some ct => includesSubstr ct "application/json"
  | none => false

/-- `errorJson.detail || fallback`: JS falls back when the `detail` field
is absent or the empty string (both falsy). -/
def jsDetailOr (fallback : String) : Option String → String
  | some d => if d = "" then fallback else d
  | none => fallback

/-- The shared response-sniffing block (`pdfService.ts`, e.g. lines
95–103): if the `content-type` header includes `application/json`, read
the blob as text, `JSON.parse` it and throw `Error(detail || fallback)`;
otherwise return the blob unchanged.  (When `JSON.parse` rejects the
body, the thrown parse error reaches the operation's catch block, whose
rethrow keeps the runtime's message: `errParse`.) -/
def handleBlobResponse (fallback : String) (r : AxiosResponse) : OpResult :=
  if isJsonContentType r.contentType then
    match r.body with
    | .json detail => .err (jsDetailOr fallback detail)
    | .binary _ => .errParse
  else
    .ok r.body

/-- `issuesRequest o = true` iff the call reached `axiosInstance.post`. -/
def issuesRequest : OpOutcome → Bool
  | .localError _ => false
  | .sent _ _ => true

/-- The request `compress` builds: file plus `String(level)` under
`compression_level`, POSTed to `/api/v1/pdf/compress`. -/
def compressRequest (file : File) (level : Int) : Request :=
  { url := "/api/v1/pdf/compress"
    form := [("file", .file file), ("compression_level", .str (toString level))] }

/-- `pdfService.compress` (lines 63–128): reject a file whose declared
type does not include `pdf`, otherwise POST the form and sniff the
response.  `level` is `CompressionLevel` in TypeScript, a numeric enum
erased at runtime, so the embedding takes any integer. -/
def compress (file : File) (level : Int) (r : AxiosResponse) : OpOutcome :=
  if !(includesSubstr file.type "pdf") then
    .localError "Invalid file type. Please select a PDF file."
  else
    .sent (compressRequest file level) (handleBlobResponse "Failed to compress PDF" r)

/-- The request `merge` builds: each file appended under `files`, POSTed
to `/api/v1/pdf/merge`.  No other field is appended. -/
def mergeRequest (files : List File) : Request :=
  { url := "/api/v1/pdf/merge"
    form := files.map (fun f => ("files", FormValue.file f)) }

/-- `pdfService.merge` (lines 130–177): throw when fewer than two files,
otherwise POST the form and sniff the response. -/
def merge (files : List File) (r : AxiosResponse) : OpOutcome :=
  if files.length < 2 then
    .localError "At least two PDF files are required for merging"
  else
    .sent (mergeRequest files) (handleBlobResponse "Failed to merge PDFs" r)

/-- The request `preview` builds: file plus `JSON.stringify(operations)`
under `operations`; the serialized operations string is taken as given
since no claim inspects it. -/
def previewRequest (file : File) (opsJson : String) : Request :=
  { url := "/api/v1/pdf/preview"
    form := [("file", .file file), ("operations", .str opsJson)] }

/-- `pdfService.preview` (lines 197–239): no local validation; POST the
form and sniff the response. -/
def preview (file : File) (opsJson : String) (r : AxiosResponse) : OpOutcome :=
  .sent (previewRequest file opsJson) (handleBlobResponse "Failed to preview PDF" r)

/-- The request `convert` builds: the single file, POSTed to
`/api/v1/pdf/convert`. -/
def convertRequest (file : File) : Request :=
  { url := "/api/v1/pdf/convert"
    form := [("file", .file file)] }

/-- `pdfService.convert` (lines 258–322): reject a file whose declared
type is exactly `application/pdf`, otherwise POST the form and sniff the
response. -/
def convert (file : File) (r : AxiosResponse) : OpOutcome :=
  if file.type = "application/pdf" then
    .localError "File is already a PDF. Please select a different format to convert."
  else
    .sent (convertRequest file) (handleBlobResponse "Failed to convert file to PDF" r)

/-- `supportedFormats` of `pdfService.export` (line 330). -/
def supportedFormats : List String := ["xlsx", "txt", "html", "png", "jpg", "jpeg"]

/-- `supportedFormats.join(', ')`. -/
def supportedFormatsJoined : String := String.intercalate ", " supportedFormats

/-- The declared default of `export`'s `format` parameter (line 324). -/
def exportDefaultFormat : String := "docx"

/-- The Dashboard's initial `exportFormat` state (Dashboard, line 112). -/
def dashboardInitialExportFormat : String := "docx"

/-- The formats offered by the Dashboard's export dialog (Dashboard,
line 1528). -/
def exportDialogFormats : List String := ["docx", "xlsx", "txt", "html", "png", "jpg"]

/-- JavaScript `s.toLowerCase()` on the ASCII strings this code handles
(format names): each character lowercased. -/
def jsToLower (s : String) : String :=
  String.mk (s.data.map Char.toLower)

/-- The request `export` builds: file plus `format.toLowerCase()` under
`format`, POSTed to `/api/v1/pdf/export`. -/
def exportRequest (file : File) (format : String) : Request :=
  { url := "/api/v1/pdf/export"
    form := [("file", .file file), ("format", .str (jsToLower format))] }

/-- `pdfService.export` (lines 324–379; named `exportOp` because `export`
is a Lean keyword): reject a file whose declared type does not include
`pdf`; reject a `format` whose lowercasing is outside `supportedFormats`,
naming the format; otherwise POST the form and sniff the response. -/
def exportOp (file : File) (format : String) (r : AxiosResponse) : OpOutcome :=
  if !(includesSubstr file.type "pdf") then
    .localError "Invalid file type. Please select a PDF file."
  else if !(supportedFormats.contains (jsToLower format)) then
    .localError ("Unsupported format: " ++ format ++ ". Supported formats are: "
      ++ supportedFormatsJoined)
  else
    .sent (exportRequest file format) (handleBlobResponse "Failed to export PDF" r)

/-! ## AuthService session lifecycle -/

/-- The authenticated user as `/auth/me` returns it. -/
structure User where
  id : String
  email : String
  name : String
  deriving DecidableEq, Repr

/-- The single local-storage entry `AuthService` keeps (its `SessionData`
interface): token, absolute expiry in milliseconds, user. -/
structure SessionData where
  token : String
  expiryTime : Nat
  user : User
  deriving DecidableEq, Repr

/-- `SESSION_DURATION = Number(import.meta.env.VITE_TOKEN_EXPIRY || 86400)
* 1000`: the configured duration in seconds (default 86400) converted to
milliseconds. -/
def sessionDurationMs (envExpirySeconds : Option Nat) : Nat :=
  envExpirySeconds.getD 86400 * 1000

/-- `AuthService.setSession` (part_012, lines 55–72): the entry written to
local storage at time `now` (ms), with `expiryTime = now + SESSION_DURATION`.
(The axios default Authorization header it also sets is not modelled.) -/
def setSession (duration now : Nat) (token : String) (user : User) : SessionData :=
  { token := token, expiryTime := now + duration, user := user }

/-- `AuthService.getSession` (part_012, lines 74–95), on a store holding
`stored` (`none` when the key is absent), read at time `now` (ms):
returns the new store contents and the returned `{token, user}` (or
`null`).  An expired entry (`now > expiryTime`) is cleared and `null`
returned; an unexpired one is rewritten via `setSession` (refreshing the
expiry) and its token and user returned. -/
def getSession (duration now : Nat) (stored : Option SessionData) :
    Option SessionData × Option (String × User) :=
  match stored with
  | none => (none, none)
  | some sd =>
    if now > sd.expiryTime then
      (none, none)
    else
      (some (setSession duration now sd.token sd.user), some (sd.token, sd.user))

/-! ## Dashboard `moveFile` -/

/-- JS `arr.splice(i, 1)`'s effect on the array when `i` is a valid
index: element `i` removed.  (`take`/`drop` also match JS clamping for
`i ≥ length`: nothing removed.) -/
def spliceRemove (l : List α) (i : Nat) : List α :=
  l.take i ++ l.drop (i + 1)

/-- JS `arr.splice(j, 0, a)`'s effect on the array: `a` inserted at index
`j`, clamped to the end for `j ≥ length` (matched by `take`/`drop`
clamping). -/
def spliceInsert (l : List α) (j : Nat) (a : α) : List α :=
  l.take j ++ a :: l.drop j

/-- The Dashboard's `moveFile` updater (part_011, lines 509–516) on the
selected-files list: copy the list, `splice(fromIndex, 1)` out the moved
file, `splice(toIndex, 0, movedFile)` it back in.  Stated for a valid
`fromIndex` (the claim's in-range case), where the destructured
`movedFile` is the element at `fromIndex`. -/
def moveFile (l : List α) (fromIndex toIndex : Nat) (h : fromIndex < l.length) :
    List α :=
  spliceInsert (spliceRemove l fromIndex) toIndex (l.get ⟨fromIndex, h⟩)

/-! ## Spec-modelled backend compress validation -/

/-- Modelled from the spec: the backend `/pdf/compress` endpoint's
validation of `compression_level` is not part of the sources (only the
front end is); per the spec, "For all compression levels outside [1,4],
compress responds 400", and in-range levels proceed (200 on success). -/
def backendCompressStatus (level : Int) : Nat :=
  if 1 ≤ level ∧ level ≤ 4 then 200 else 400

/-! ## Claims -/

/-- C2: merging fewer than 2 files throws the minimum-file-count error
and issues no HTTP request; merging 2 or more files issues exactly one
POST to the merge endpoint. -/
theorem merge_requires_two_files (files : List File) (r : AxiosResponse) :
    (files.length < 2 →
      merge files r = OpOutcome.localError "At least two PDF files are required for merging" ∧
      issuesRequest (merge files r) = false)
    ∧ (2 ≤ files.length →
      merge files r =
        OpOutcome.sent (mergeRequest files) (handleBlobResponse "Failed to merge PDFs" r) ∧
      issuesRequest (merge files r) = true ∧
      (mergeRequest files).url = "/api/v1/pdf/merge") := by
  constructor
  · intro h
    simp [merge, h, issuesRequest]
  · intro h
    have h' : ¬ files.length < 2 := by omega
    simp [merge, h', issuesRequest, mergeRequest]

/-- Witness for C2: one file is rejected without a request; two files are
sent to the merge endpoint. -/
theorem merge_requires_two_files_witness :
    merge [{ name := "a.pdf", type := "application/pdf", size := 1 }]
        { contentType := some "application/pdf", body := Body.binary [0] } =
      OpOutcome.localError "At least two PDF files are required for merging" ∧
    issuesRequest
      (merge [{ name := "a.pdf", type := "application/pdf", size := 1 },
              { name := "b.pdf", type := "application/pdf", size := 2 }]
        { contentType := some "application/pdf", body := Body.binary [0] }) = true := by
  refine ⟨((merge_requires_two_files _ _).1 (by decide)).1, ?_⟩
  exact ((merge_requires_two_files _ _).2 (by decide)).2.1

/-- C5: converting a file declared `application/pdf` always throws before
any request; any other declared type sends the conversion request. -/
theorem convert_rejects_pdf_input (file : File) (r : AxiosResponse) :
    (file.type = "application/pdf" →
      convert file r =
        OpOutcome.localError
          "File is already a PDF. Please select a different format to convert." ∧
      issuesRequest (convert file r) = false)
    ∧ (file.type ≠ "application/pdf" →
      convert file r =
        OpOutcome.sent (convertRequest file) (handleBlobResponse "Failed to convert file to PDF" r) ∧
      issuesRequest (convert file r) = true) := by
  constructor
  · intro h
    simp [convert, h, issuesRequest]
  · intro h
    simp [convert, h, issuesRequest]

/-- Witness for C5: a PDF-typed file is rejected locally; a DOCX-typed
file has its request sent. -/
theorem convert_rejects_pdf_input_witness :
    issuesRequest
      (convert { name := "a.pdf", type := "application/pdf", size := 1 }
        { contentType := some "application/pdf", body := Body.binary [0] }) = false ∧
    issuesRequest
      (convert
        { name := "a.docx"
          type := "application/vnd.openxmlformats-officedocument.wordprocessingml.document"
          size := 1 }
        { contentType := some "application/pdf", body := Body.binary [0] }) = true := by
  refine ⟨((convert_rejects_pdf_input _ _).1 (by decide)).2, ?_⟩
  exact ((convert_rejects_pdf_input _ _).2 (by decide)).2

/-- C8: compressing a file whose declared MIME type does not include
`pdf` throws an error whose message mentions PDF, and no request is
issued. -/
theorem compress_rejects_non_pdf (file : File) (level : Int) (r : AxiosResponse)
    (h : includesSubstr file.type "pdf" = false) :
    compress file level r =
      OpOutcome.localError "Invalid file type. Please select a PDF file." ∧
    includesSubstr "Invalid file type. Please select a PDF file." "PDF" = true ∧
    issuesRequest (compress file level r) = false := by
  refine ⟨?_, by decide, ?_⟩ <;> simp [compress, h, issuesRequest]

/-- Witness for C8: a PNG-typed file is rejected without a request. -/
theorem compress_rejects_non_pdf_witness :
    compress { name := "a.png", type := "image/png", size := 9 } 2
        { contentType := some "application/pdf", body := Body.binary [0] } =
      OpOutcome.localError "Invalid file type. Please select a PDF file." :=
  (compress_rejects_non_pdf _ 2 _ (by decide)).1

/-- Substring of a concatenation: the middle piece of `pre ++ mid ++ suf`
is always found by `includesSubstr`. -/
lemma includesSubstr_append_mid (pre mid suf : String) :
    includesSubstr (pre ++ mid ++ suf) mid = true := by
  rw [includesSubstr, decide_eq_true_iff]
  refine ⟨pre.toList, suf.toList, ?_⟩
  show pre.toList ++ mid.toList ++ suf.toList = (pre ++ mid ++ suf).toList
  rfl

/-- C1: for every fulfilled response a file operation receives, a
`content-type` including `application/json` makes the client parse the
body as `{detail}` and throw that detail, and any other `content-type`
makes it return the blob unchanged; and each of `compress`, `merge`,
`preview`, `convert`, `exportOp`, once its request is sent, finishes with
exactly this sniffing of the response. -/
theorem response_sniffing_contract :
    (∀ (fallback : String) (r : AxiosResponse) (ct d : String),
      r.contentType = some ct → includesSubstr ct "application/json" = true →
      r.body = Body.json (some d) → d ≠ "" →
      handleBlobResponse fallback r = OpResult.err d)
    ∧ (∀ (fallback : String) (r : AxiosResponse),
      isJsonContentType r.contentType = false →
      handleBlobResponse fallback r = OpResult.ok r.body)
    ∧ (∀ (file : File) (level : Int) (r : AxiosResponse),
      includesSubstr file.type "pdf" = true →
      compress file level r =
        OpOutcome.sent (compressRequest file level)
          (handleBlobResponse "Failed to compress PDF" r))
    ∧ (∀ (files : List File) (r : AxiosResponse), 2 ≤ files.length →
      merge files r =
        OpOutcome.sent (mergeRequest files) (handleBlobResponse "Failed to merge PDFs" r))
    ∧ (∀ (file : File) (opsJson : String) (r : AxiosResponse),
      preview file opsJson r =
        OpOutcome.sent (previewRequest file opsJson)
          (handleBlobResponse "Failed to preview PDF" r))
    ∧ (∀ (file : File) (r : AxiosResponse), file.type ≠ "application/pdf" →
      convert file r =
        OpOutcome.sent (convertRequest file)
          (handleBlobResponse "Failed to convert file to PDF" r))
    ∧ (∀ (file : File) (format : String) (r : AxiosResponse),
      includesSubstr file.type "pdf" = true →
      supportedFormats.contains (jsToLower format) = true →
      exportOp file format r =
        OpOutcome.sent (exportRequest file format)
          (handleBlobResponse "Failed to export PDF" r)) := by
  refine ⟨?_, ?_, ?_, ?_, ?_, ?_, ?_⟩
  · intro fallback r ct d hct hjson hbody hd
    simp [handleBlobResponse, isJsonContentType, hct, hjson, hbody, jsDetailOr, hd]
  · intro fallback r h
    simp [handleBlobResponse, h]
  · intro file level r h
    simp [compress, h]
  · intro files r h
    have h' : ¬ files.length < 2 := by omega
    simp [merge, h']
  · intro file opsJson r
    rfl
  · intro file r h
    simp [convert, h]
  · intro file format r hpdf hfmt
    have hm : jsToLower format ∈ supportedFormats := by simpa using hfmt
    simp [exportOp, hpdf, hfmt, hm]

/-- Witness for C1: a JSON response with `detail` becomes that error; a
PDF response is returned unchanged; a concrete compress call ends with
the sniffed result. -/
theorem response_sniffing_contract_witness :
    handleBlobResponse "Failed to compress PDF"
        { contentType := some "application/json", body := Body.json (some "boom") } =
      OpResult.err "boom" ∧
    handleBlobResponse "Failed to merge PDFs"
        { contentType := some "application/pdf", body := Body.binary [37] } =
      OpResult.ok (Body.binary [37]) ∧
    compress { name := "a.pdf", type := "application/pdf", size := 1 } 2
        { contentType := some "application/json", body := Body.json (some "boom") } =
      OpOutcome.sent
        (compressRequest { name := "a.pdf", type := "application/pdf", size := 1 } 2)
        (handleBlobResponse "Failed to compress PDF"
          { contentType := some "application/json", body := Body.json (some "boom") }) := by
  refine ⟨response_sniffing_contract.1 _ _ "application/json" "boom" rfl (by decide) rfl
      (by decide), ?_, ?_⟩
  · exact response_sniffing_contract.2.1 _ _ (by decide)
  · exact response_sniffing_contract.2.2.1 _ 2 _ (by decide)

/-- Counterexample for C3: a concrete two-file merge sends a request, yet
every field of its body is named `files` — no `merge_order` field is
appended. -/
theorem merge_no_merge_order_counterexample :
    merge [{ name := "a.pdf", type := "application/pdf", size := 1 },
           { name := "b.pdf", type := "application/pdf", size := 2 }]
        { contentType := some "application/pdf", body := Body.binary [0] } =
      OpOutcome.sent
        (mergeRequest [{ name := "a.pdf", type := "application/pdf", size := 1 },
                       { name := "b.pdf", type := "application/pdf", size := 2 }])
        (OpResult.ok (Body.binary [0])) ∧
    ((mergeRequest [{ name := "a.pdf", type := "application/pdf", size := 1 },
                    { name := "b.pdf", type := "application/pdf", size := 2 }]).form.all
      (fun p => p.1 == "files")) = true := by
  constructor
  · rfl
  · decide

/-- C3 (amended): for every merge call with 2 or more files, the request
body contains exactly one `files` entry per file, in order, and no
`merge_order` field. -/
theorem merge_request_form_files_only (files : List File) (r : AxiosResponse)
    (h : 2 ≤ files.length) :
    merge files r =
      OpOutcome.sent (mergeRequest files) (handleBlobResponse "Failed to merge PDFs" r) ∧
    (mergeRequest files).form = files.map (fun f => ("files", FormValue.file f)) ∧
    ((mergeRequest files).form.all (fun p => p.1 == "files")) = true ∧
    ((mergeRequest files).form.all (fun p => !(p.1 == "merge_order"))) = true := by
  have h' : ¬ files.length < 2 := by omega
  refine ⟨by simp [merge, h'], rfl, ?_, ?_⟩ <;>
    simp [mergeRequest, List.all_eq_true]

/-- Witness for C3 (amended): the two-file merge body is the two `files`
entries and nothing else. -/
theorem merge_request_form_files_only_witness :
    (mergeRequest [{ name := "a.pdf", type := "application/pdf", size := 1 },
                   { name := "b.pdf", type := "application/pdf", size := 2 }]).form =
      [("files", FormValue.file { name := "a.pdf", type := "application/pdf", size := 1 }),
       ("files", FormValue.file { name := "b.pdf", type := "application/pdf", size := 2 })] :=
  (merge_request_form_files_only
    [{ name := "a.pdf", type := "application/pdf", size := 1 },
     { name := "b.pdf", type := "application/pdf", size := 2 }]
    { contentType := some "application/pdf", body := Body.binary [0] } (by decide)).2.1

/-- C4: an export format whose lowercasing is outside `supportedFormats`
is rejected before any request, with an error naming the format; and the
membership test only looks at the lowercased format, so it is
case-insensitive in the given string. -/
theorem export_unsupported_format_rejected (file : File) (format : String) (r : AxiosResponse)
    (hpdf : includesSubstr file.type "pdf" = true)
    (hfmt : supportedFormats.contains (jsToLower format) = false) :
    exportOp file format r =
      OpOutcome.localError ("Unsupported format: " ++ format ++ ". Supported formats are: "
        ++ supportedFormatsJoined) ∧
    includesSubstr ("Unsupported format: " ++ format ++ ". Supported formats are: "
        ++ supportedFormatsJoined) format = true ∧
    issuesRequest (exportOp file format r) = false ∧
    (∀ g : String, jsToLower g = jsToLower format →
      supportedFormats.contains (jsToLower g) = false) := by
  have hm : jsToLower format ∉ supportedFormats := by simpa using hfmt
  refine ⟨?_, ?_, ?_, ?_⟩
  · simp [exportOp, hpdf, hfmt, hm]
  · have := includesSubstr_append_mid "Unsupported format: " format
      (". Supported formats are: " ++ supportedFormatsJoined)
    simpa [String.append_assoc] using this
  · simp [exportOp, hpdf, hfmt, hm, issuesRequest]
  · intro g hg
    rw [hg]
    exact hfmt

/-- Witness for C4: exporting a PDF-typed file to `gif` fails naming the
format and issues no request. -/
theorem export_unsupported_format_rejected_witness :
    exportOp { name := "a.pdf", type := "application/pdf", size := 1 } "gif"
        { contentType := some "application/pdf", body := Body.binary [0] } =
      OpOutcome.localError ("Unsupported format: gif. Supported formats are: "
        ++ supportedFormatsJoined) := by
  have h := (export_unsupported_format_rejected
    { name := "a.pdf", type := "application/pdf", size := 1 } "gif"
    { contentType := some "application/pdf", body := Body.binary [0] }
    (by decide) (by decide)).1
  simpa using h

/-- C9: `docx` — the export's own declared default, the Dashboard's
initial export format, and an offered dialog choice — is absent from
`supportedFormats`, so exporting a PDF-typed file as `docx` always fails
with `Unsupported format: docx` before any request is sent. -/
theorem export_docx_default_always_fails (file : File) (r : AxiosResponse)
    (hpdf : includesSubstr file.type "pdf" = true) :
    exportDefaultFormat = "docx" ∧
    dashboardInitialExportFormat = "docx" ∧
    "docx" ∈ exportDialogFormats ∧
    supportedFormats.contains "docx" = false ∧
    exportOp file exportDefaultFormat r =
      OpOutcome.localError ("Unsupported format: docx. Supported formats are: "
        ++ supportedFormatsJoined) ∧
    includesSubstr ("Unsupported format: docx. Supported formats are: "
        ++ supportedFormatsJoined) "Unsupported format: docx" = true ∧
    issuesRequest (exportOp file exportDefaultFormat r) = false := by
  have hm : jsToLower "docx" ∉ supportedFormats := by decide
  refine ⟨rfl, rfl, by decide, by decide, ?_, by decide, ?_⟩
  · simp [exportOp, hpdf, hm, exportDefaultFormat]
  · simp [exportOp, hpdf, hm, issuesRequest, exportDefaultFormat]

/-- Witness for C9: a concrete PDF-typed file exported with the default
format fails locally. -/
theorem export_docx_default_always_fails_witness :
    exportOp { name := "a.pdf", type := "application/pdf", size := 1 } exportDefaultFormat
        { contentType := some "application/pdf", body := Body.binary [0] } =
      OpOutcome.localError ("Unsupported format: docx. Supported formats are: "
        ++ supportedFormatsJoined) :=
  (export_docx_default_always_fails { name := "a.pdf", type := "application/pdf", size := 1 }
    { contentType := some "application/pdf", body := Body.binary [0] } (by decide)).2.2.2.2.1

/-- C7: a compression level outside [1,4] is answered 400 by the
(spec-modelled) backend validation; a level in [1,4] passes validation
and is forwarded by the client as the `compression_level` field of the
one request it sends. -/
theorem compress_level_validation (file : File) (level : Int) (r : AxiosResponse)
    (hpdf : includesSubstr file.type "pdf" = true) :
    ((level < 1 ∨ 4 < level) → backendCompressStatus level = 400) ∧
    (1 ≤ level → level ≤ 4 →
      backendCompressStatus level = 200 ∧
      compress file level r =
        OpOutcome.sent (compressRequest file level)
          (handleBlobResponse "Failed to compress PDF" r) ∧
      ("compression_level", FormValue.str (toString level)) ∈ (compressRequest file level).form) := by
  constructor
  · intro h
    have h' : ¬ (1 ≤ level ∧ level ≤ 4) := by omega
    simp [backendCompressStatus, h']
  · intro h1 h4
    refine ⟨by simp [backendCompressStatus, h1, h4], by simp [compress, hpdf], ?_⟩
    simp [compressRequest]

/-- Witness for C7: level 0 is rejected with 400; level 2 passes and is
forwarded in the request body. -/
theorem compress_level_validation_witness :
    backendCompressStatus 0 = 400 ∧
    ("compression_level", FormValue.str (toString (2 : Int))) ∈
      (compressRequest { name := "a.pdf", type := "application/pdf", size := 1 } 2).form := by
  constructor
  · exact (compress_level_validation { name := "a.pdf", type := "application/pdf", size := 1 } 0
      { contentType := some "application/pdf", body := Body.binary [0] } (by decide)).1
      (by decide)
  · exact ((compress_level_validation { name := "a.pdf", type := "application/pdf", size := 1 } 2
      { contentType := some "application/pdf", body := Body.binary [0] } (by decide)).2
      (by decide) (by decide)).2.2

/-- C6: the stored entry is created with `expiryTime = storage time +
configured duration` (default 86400 s = 86400000 ms); reading an
unexpired entry rewrites it with a refreshed expiry and returns the same
token and user; reading after `expiryTime` clears the entry and returns
null. -/
theorem session_lifecycle (env : Option Nat) (now readTime : Nat) (token : String)
    (user : User) (sd : SessionData) :
    sessionDurationMs none = 86400 * 1000 ∧
    setSession (sessionDurationMs env) now token user =
      { token := token, expiryTime := now + sessionDurationMs env, user := user } ∧
    (readTime ≤ sd.expiryTime →
      getSession (sessionDurationMs env) readTime (some sd) =
        (some { token := sd.token, expiryTime := readTime + sessionDurationMs env,
                user := sd.user },
         some (sd.token, sd.user))) ∧
    (sd.expiryTime < readTime →
      getSession (sessionDurationMs env) readTime (some sd) = (none, none)) := by
  refine ⟨rfl, rfl, ?_, ?_⟩
  · intro h
    have h' : ¬ readTime > sd.expiryTime := by omega
    simp [getSession, h', setSession]
  · intro h
    simp [getSession, h]

/-- Witness for C6: a token stored at 1000 ms with the default duration
expires at 1000 + 86400000; reading it at 5000 ms refreshes the expiry
and returns the token and user; reading at 86500000 ms clears it. -/
theorem session_lifecycle_witness :
    setSession (sessionDurationMs none) 1000 "tok" { id := "u1", email := "e", name := "n" } =
      { token := "tok", expiryTime := 1000 + 86400 * 1000,
        user := { id := "u1", email := "e", name := "n" } } ∧
    getSession (sessionDurationMs none) 5000
        (some { token := "tok", expiryTime := 86401000,
                user := { id := "u1", email := "e", name := "n" } }) =
      (some { token := "tok", expiryTime := 5000 + sessionDurationMs none,
              user := { id := "u1", email := "e", name := "n" } },
       some ("tok", { id := "u1", email := "e", name := "n" })) ∧
    getSession (sessionDurationMs none) 86500000
        (some { token := "tok", expiryTime := 86401000,
                user := { id := "u1", email := "e", name := "n" } }) =
      (none, none) := by
  refine ⟨?_, ?_, ?_⟩
  · have h := session_lifecycle none 1000 5000 "tok" { id := "u1", email := "e", name := "n" }
      { token := "tok", expiryTime := 86401000, user := { id := "u1", email := "e", name := "n" } }
    simpa using h.2.1
  · exact (session_lifecycle none 1000 5000 "tok" { id := "u1", email := "e", name := "n" }
      { token := "tok", expiryTime := 86401000,
        user := { id := "u1", email := "e", name := "n" } }).2.2.1 (by decide)
  · exact (session_lifecycle none 1000 86500000 "tok" { id := "u1", email := "e", name := "n" }
      { token := "tok", expiryTime := 86401000,
        user := { id := "u1", email := "e", name := "n" } }).2.2.2 (by decide)

/-- Inserting at any index is, up to permutation, consing. -/
lemma spliceInsert_perm (m : List α) (j : Nat) (a : α) :
    List.Perm (spliceInsert m j a) (a :: m) := by
  have h : List.Perm (m.take j ++ a :: m.drop j) (a :: (m.take j ++ m.drop j)) :=
    List.perm_middle
  rw [List.take_append_drop] at h
  exact h

/-- Removing a valid index is, up to permutation, removing that element
from the front. -/
lemma perm_cons_spliceRemove (l : List α) (i : Nat) (h : i < l.length) :
    List.Perm l (l.get ⟨i, h⟩ :: spliceRemove l i) := by
  have h1 : l = l.take i ++ (l.get ⟨i, h⟩ :: l.drop (i + 1)) := by
    conv_lhs => rw [← List.take_append_drop i l]
    congr 1
    rw [List.get_eq_getElem, List.getElem_cons_drop]
  nth_rewrite 1 [h1]
  exact List.perm_middle

/-- C10: for in-range `fromIndex` and `toIndex`, `moveFile` returns a
list of the same length holding exactly the same files (a permutation,
hence the same multiset), with the file previously at `fromIndex` now at
`toIndex`. -/
theorem moveFile_preserves_files (l : List α) (i j : Nat)
    (hi : i < l.length) (hj : j < l.length) :
    List.Perm (moveFile l i j hi) l ∧
    (moveFile l i j hi).length = l.length ∧
    ((moveFile l i j hi : List α) : Multiset α) = (l : Multiset α) ∧
    (moveFile l i j hi)[j]? = some (l.get ⟨i, hi⟩) := by
  have hperm : List.Perm (moveFile l i j hi) l :=
    (spliceInsert_perm _ _ _).trans (perm_cons_spliceRemove l i hi).symm
  refine ⟨hperm, hperm.length_eq, Multiset.coe_eq_coe.mpr hperm, ?_⟩
  have htake : ((spliceRemove l i).take j).length = j := by
    rw [List.length_take]
    simp only [spliceRemove, List.length_append, List.length_take, List.length_drop]
    omega
  rw [moveFile, spliceInsert, List.getElem?_append_right (by rw [htake]), htake]
  simp

/-- Witness for C10: moving the file at index 0 to index 2 in a 3-file
list keeps the length and puts that file at index 2. -/
theorem moveFile_preserves_files_witness :
    (moveFile [10, 20, 30] 0 2 (by decide)).length = 3 ∧
    (moveFile [10, 20, 30] 0 2 (by decide))[2]? = some 10 := by
  have h := moveFile_preserves_files [10, 20, 30] 0 2 (by decide) (by decide)
  exact ⟨by simpa using h.2.1, by simpa using h.2.2.2⟩
